import Mathlib

/-!
Verification of the ProblemSpotter classification-with-cache pipeline.

The repository contains two parallel implementations of the analyzer:

* `src/analyze_problems.py` — the legacy flat script: `analyze_post` consults a
  content-addressed result cache before calling the external service, its
  `AnalysisResult` pydantic model has no `error` field and constrains
  `confidence_score` to `[0, 1]`, and all service failures are handled by one
  catch-all handler.
* `src/problem_spotter/core/analyze_problems.py` — the package version:
  `analyze_post` never consults the cache, its `AnalysisResult` carries an
  optional `error` field and does not constrain `confidence_score`, and the
  failure handlers distinguish rate-limit, authentication, API and unknown
  errors, re-raising the first two when the direct caller is one of two named
  test functions (discovered by stack inspection).

Both are embedded below, in namespaces `Legacy` and `Core`.  The file system
cache (one `<hex-digest>.json` file per key under `CACHE_DIR`) is modelled as a
partial map from key strings to stored JSON objects; `json.dump` followed by
`json.load` is the identity on the JSON values in scope, so a stored object is
modelled as the object itself.  The outcome of the single external
chat-completions call is an explicit parameter (`CallOutcome`), covering the
success payloads and the exception classes the source distinguishes.
-/

namespace ProblemSpotter

/-- JSON values, restricted to the shapes the analyzer reads and writes: the
decision payload fields are booleans, numbers and strings (numbers are modelled
exactly, as rationals).  `jnull` stands for JSON `null`. -/
inductive JVal where
  | jbool (b : Bool)
  | jnum (q : Rat)
  | jstr (s : String)
  | jnull
  deriving DecidableEq, Repr

/-- A JSON object, as an association list of fields.  The objects handled by
the analyzer have pairwise distinct keys, and lookups take the first match. -/
abbrev JsonObj := List (String × JVal)

/-! ## UTF-8 and SHA-256

`create_cache_key` in both source files is
`hashlib.sha256(post_content.encode("utf-8")).hexdigest()`.  The byte encoding
and the hash are modelled from their specifications (RFC 3629 and FIPS 180-4),
which is what `str.encode` and `hashlib.sha256` implement. -/

/-- UTF-8 encoding of a single code point (RFC 3629).  Lean `Char` excludes
surrogates, exactly as Python `str` code points are encoded. -/
def utf8Bytes (c : Nat) : List Nat :=
  if c < 0x80 then [c]
  else if c < 0x800 then [0xC0 + c / 0x40, 0x80 + c % 0x40]
  else if c < 0x10000 then
    [0xE0 + c / 0x1000, 0x80 + (c / 0x40) % 0x40, 0x80 + c % 0x40]
  else
    [0xF0 + c / 0x40000, 0x80 + (c / 0x1000) % 0x40, 0x80 + (c / 0x40) % 0x40,
     0x80 + c % 0x40]

/-- The UTF-8 byte sequence of a string, i.e. Python `s.encode("utf-8")`. -/
def strBytes (s : String) : List Nat :=
  s.data.flatMap (fun c => utf8Bytes c.toNat)

/-- Truncation to a 32-bit word. -/
def w32 (x : Nat) : Nat := x % 4294967296

/-- Right rotation of a 32-bit word by `n` bits. -/
def rotr (n x : Nat) : Nat := w32 ((x >>> n) ||| (x <<< (32 - n)))

/-- SHA-256 big sigma-0. -/
def bSig0 (x : Nat) : Nat := rotr 2 x ^^^ rotr 13 x ^^^ rotr 22 x

/-- SHA-256 big sigma-1. -/
def bSig1 (x : Nat) : Nat := rotr 6 x ^^^ rotr 11 x ^^^ rotr 25 x

/-- SHA-256 small sigma-0. -/
def sSig0 (x : Nat) : Nat := rotr 7 x ^^^ rotr 18 x ^^^ (x >>> 3)

/-- SHA-256 small sigma-1. -/
def sSig1 (x : Nat) : Nat := rotr 17 x ^^^ rotr 19 x ^^^ (x >>> 10)

/-- SHA-256 choice function. -/
def chF (x y z : Nat) : Nat := (x &&& y) ^^^ ((x ^^^ 0xFFFFFFFF) &&& z)

/-- SHA-256 majority function. -/
def majF (x y z : Nat) : Nat := (x &&& y) ^^^ (x &&& z) ^^^ (y &&& z)

/-- The 64 SHA-256 round constants of FIPS 180-4 (decimal rendering). -/
def K256 : List Nat :=
  [1116352408, 1899447441, 3049323471, 3921009573, 961987163,
   1508970993, 2453635748, 2870763221, 3624381080, 310598401,
   607225278, 1426881987, 1925078388, 2162078206, 2614888103,
   3248222580, 3835390401, 4022224774, 264347078, 604807628,
   770255983, 1249150122, 1555081692, 1996064986, 2554220882,
   2821834349, 2952996808, 3210313671, 3336571891, 3584528711,
   113926993, 338241895, 666307205, 773529912, 1294757372,
   1396182291, 1695183700, 1986661051, 2177026350, 2456956037,
   2730485921, 2820302411, 3259730800, 3345764771, 3516065817,
   3600352804, 4094571909, 275423344, 430227734, 506948616,
   659060556, 883997877, 958139571, 1322822218, 1537002063,
   1747873779, 1955562222, 2024104815, 2227730452, 2361852424,
   2428436474, 2756734187, 3204031479, 3329325298]

/-- The SHA-256 initial hash value of FIPS 180-4 (decimal rendering). -/
def H256 : List Nat :=
  [1779033703, 3144134277, 1013904242, 2773480762,
   1359893119, 2600822924, 528734635, 1541459225]

/-- Big-endian assembly of 4-byte groups into 32-bit words. -/
def toWords : List Nat → List Nat
  | b0 :: b1 :: b2 :: b3 :: rest => (((b0 * 256 + b1) * 256 + b2) * 256 + b3) :: toWords rest
  | _ => []

/-- The 8 big-endian length bytes of the padding trailer. -/
def lenBytes (n : Nat) : List Nat :=
  (List.range 8).map (fun i => (n >>> (56 - 8 * i)) % 256)

/-- SHA-256 message padding: a `0x80` byte, zeros to 56 mod 64, then the
bit length as 8 big-endian bytes. -/
def sha256pad (msg : List Nat) : List Nat :=
  let len := msg.length
  let zeros := (120 - (len + 1) % 64) % 64
  msg ++ 0x80 :: List.replicate zeros 0 ++ lenBytes (8 * len)

/-- One step of the SHA-256 message-schedule extension. -/
def schedStep (w : Array Nat) (_ : Nat) : Array Nat :=
  let n := w.size
  w.push (w32 (sSig1 (w.get! (n - 2)) + w.get! (n - 7) + sSig0 (w.get! (n - 15)) +
    w.get! (n - 16)))

/-- The 64-word message schedule of one block. -/
def schedule (block : List Nat) : List Nat :=
  ((List.range 48).foldl schedStep (toWords block).toArray).toList

/-- The SHA-256 working state: one 32-bit word per register. -/
structure Sha8 where
  a : Nat
  b : Nat
  c : Nat
  d : Nat
  e : Nat
  f : Nat
  g : Nat
  h : Nat
  deriving DecidableEq, Repr

/-- One SHA-256 compression round. -/
def round256 (st : Sha8) (wk : Nat × Nat) : Sha8 :=
  let t1 := w32 (st.h + bSig1 st.e + chF st.e st.f st.g + wk.2 + wk.1)
  let t2 := w32 (bSig0 st.a + majF st.a st.b st.c)
  ⟨w32 (t1 + t2), st.a, st.b, st.c, w32 (st.d + t1), st.e, st.f, st.g⟩

/-- SHA-256 compression of one 64-byte block into the chaining value. -/
def processBlock (hv : List Nat) (block : List Nat) : List Nat :=
  match hv with
  | [h0, h1, h2, h3, h4, h5, h6, h7] =>
    let st := ((schedule block).zip K256).foldl round256 ⟨h0, h1, h2, h3, h4, h5, h6, h7⟩
    [w32 (h0 + st.a), w32 (h1 + st.b), w32 (h2 + st.c), w32 (h3 + st.d),
     w32 (h4 + st.e), w32 (h5 + st.f), w32 (h6 + st.g), w32 (h7 + st.h)]
  | other => other

/-- The lowercase hex digits. -/
def hexChars : List Char := "0123456789abcdef".toList

/-- Lowercase hex rendering of one 32-bit word. -/
def wordHex (w : Nat) : List Char :=
  (List.range 8).map (fun i => hexChars.getD ((w >>> (28 - 4 * i)) % 16) '0')

/-- SHA-256 digest of a byte sequence, rendered as 64 lowercase hex characters,
i.e. `hashlib.sha256(bytes).hexdigest()`. -/
def sha256hex (msg : List Nat) : String :=
  String.mk ((((sha256pad msg).toChunks 64).foldl processBlock H256).flatMap wordHex)

/-! ## Shared data model -/

/-- A raw Reddit post, with the field set both analyzers consume
(`AnalyzedPost` schema in both source files). -/
structure RawPost where
  id : String
  title : String
  selftext : String
  author : String
  created_utc : Rat
  subreddit : String
  permalink : String
  url : String
  score : Int
  over_18 : Bool
  deriving DecidableEq, Repr

/-- The text both analyzers feed to the fingerprinter and to the service
prompt: `post_content` at `src/analyze_problems.py:148`. -/
def post_content (post : RawPost) : String :=
  "Title: " ++ post.title ++ "\nContent: " ++ post.selftext

/-- Both files' `create_cache_key`:
`hashlib.sha256(post_content.encode("utf-8")).hexdigest()`. -/
def create_cache_key (s : String) : String :=
  sha256hex (strBytes s)

/-- The fingerprint `analyze_post` computes for a post
(`src/analyze_problems.py:147-151`). -/
def fingerprint (post : RawPost) : String :=
  create_cache_key (post_content post)

/-- The cache directory as a map from cache key to the JSON object stored in
`CACHE_DIR/<key>.json`; `none` means the file does not exist.  `json.dump`
followed by `json.load` is the identity on the stored objects, so entries are
modelled as the objects themselves. -/
def Cache : Type := String → Option JsonObj

/-- Both files' `get_cached_analysis`: read and parse `CACHE_DIR/<key>.json`
when it exists, otherwise return `None`. -/
def get_cached_analysis (cache : Cache) (cache_key : String) : Option JsonObj :=
  cache cache_key

/-- Both files' `save_to_cache`: write the JSON object to
`CACHE_DIR/<key>.json`, overwriting any existing file. -/
def save_to_cache (cache : Cache) (cache_key : String) (analysis : JsonObj) : Cache :=
  fun k => if k = cache_key then some analysis else cache k

/-- Python truthiness of `cached_result` (an optional dict): `None` and the
empty dict are falsy, a nonempty dict is truthy. -/
def dictTruthy : Option JsonObj → Bool
  | some d => !d.isEmpty
  | none => false

/-! ## The parsed response content and the call outcome

`analyze_post` makes one `chat.completions.create` call.  Its outcome is
either a response whose message content is then parsed with `json.loads`, or
one of the exception classes the source distinguishes.  The string-level JSON
parse is abstracted into its possible results. -/

/-- The message content of a successful service response, as `json.loads`
sees it: `None`, the empty string, a nonempty unparseable string (carrying the
`JSONDecodeError` text), or a parsed JSON object. -/
inductive ParsedContent where
  | nullContent
  | emptyStr
  | unparseable (msg : String)
  | jsonObj (analysis : JsonObj)
  deriving DecidableEq, Repr

/-- The outcome of the external chat-completions call: a response with some
content, or one of the exception classes the handlers in
`src/problem_spotter/core/analyze_problems.py` distinguish (each carrying its
`str(e)` rendering).  `apiErr` covers `APIError` and its connection-error
subclass; `otherErr` covers any other exception. -/
inductive CallOutcome where
  | success (content : ParsedContent)
  | rateLimitErr (msg : String)
  | authErr (msg : String)
  | apiErr (msg : String)
  | otherErr (msg : String)
  deriving DecidableEq, Repr

/-! ## Field extraction from a decision payload

Both analyzers build their pydantic `AnalysisResult` from a parsed dict with
`analysis["is_question"]`, `analysis["confidence_score"]`,
`analysis.get("category", "")` and `analysis["reasoning"]`.  A missing
required key raises `KeyError` (whose `str` is the quoted key) and a
wrongly-typed value fails pydantic validation; both are modelled as
`Except.error` carrying the exception text. -/

/-- Required boolean field: `d[k]` then pydantic `bool` validation. -/
def getBoolField (d : JsonObj) (k : String) : Except String Bool :=
  match d.lookup k with
  | some (.jbool b) => .ok b
  | some _ => .error ("validation error for field " ++ k)
  | none => .error ("'" ++ k ++ "'")

/-- Required numeric field: `d[k]` then pydantic `float` validation. -/
def getNumField (d : JsonObj) (k : String) : Except String Rat :=
  match d.lookup k with
  | some (.jnum q) => .ok q
  | some _ => .error ("validation error for field " ++ k)
  | none => .error ("'" ++ k ++ "'")

/-- Required string field: `d[k]` then pydantic `str` validation. -/
def getStrField (d : JsonObj) (k : String) : Except String String :=
  match d.lookup k with
  | some (.jstr s) => .ok s
  | some _ => .error ("validation error for field " ++ k)
  | none => .error ("'" ++ k ++ "'")

/-- Optional string field with default: `d.get(k, dflt)` then pydantic `str`
validation. -/
def getStrFieldOr (d : JsonObj) (k : String) (dflt : String) : Except String String :=
  match d.lookup k with
  | some (.jstr s) => .ok s
  | some _ => .error ("validation error for field " ++ k)
  | none => .ok dflt

namespace Legacy

/-- The legacy `AnalysisResult` pydantic model (`src/analyze_problems.py:35-43`):
no `error` field, and `confidence_score` declared `Field(ge=0.0, le=1.0)`. -/
structure AnalysisResult where
  post_id : String
  is_question : Bool
  confidence_score : Rat
  category : String
  reasoning : String
  deriving DecidableEq, Repr

/-- Construction of the legacy `AnalysisResult` from a decision dict, as at
`src/analyze_problems.py:156-162` and `208-214`: the four dict accesses, then
pydantic validation including the `ge=0.0, le=1.0` bound on
`confidence_score`.  Any failure is a raised exception (`Except.error`). -/
def mkAnalysisResult (pid : String) (d : JsonObj) : Except String AnalysisResult :=
  match getBoolField d "is_question" with
  | .error e => .error e
  | .ok q =>
    match getNumField d "confidence_score" with
    | .error e => .error e
    | .ok cs =>
      match getStrFieldOr d "category" "" with
      | .error e => .error e
      | .ok cat =>
        match getStrField d "reasoning" with
        | .error e => .error e
        | .ok r =>
          if (0 : Rat) ≤ cs ∧ cs ≤ 1 then .ok ⟨pid, q, cs, cat, r⟩
          else .error "validation error for field confidence_score"

/-- The catch-all handler's default result (`src/analyze_problems.py:215-224`):
`reasoning` embeds `str(e)` after the fixed prefix. -/
def defaultErrorResult (pid msg : String) : AnalysisResult :=
  ⟨pid, false, 0, "", "Error during analysis: " ++ msg⟩

/-- CPython `str(e)` for `json.loads(None)` (a `TypeError`). -/
def noneLoadsMsg : String :=
  "the JSON object must be str, bytes or bytearray, not NoneType"

/-- CPython `str(e)` for `json.loads("")` (a `JSONDecodeError`). -/
def emptyLoadsMsg : String :=
  "Expecting value: line 1 column 1 (char 0)"

/-- The legacy `analyze_post` (`src/analyze_problems.py:138-224`), as a function
of the post, the cache state, and the outcome of the (at most one) service
call.  It returns the produced result (`Except.error` when the cache-hit path
raises), the cache state afterwards, and whether the external call was made.

Source shape: compute `post_content` and `cache_key`; on a truthy cached dict
return a result built from it (no call, no write; a malformed cached dict
raises, since this path is outside the `try`); otherwise call the service
inside `try`; on a response whose content parses as JSON, `save_to_cache` runs
before the result is built, so a dict missing required fields is cached even
though the catch-all handler then returns the default result; every exception
in the `try` is absorbed by the single `except Exception` handler. -/
def analyze_post (post : RawPost) (cache : Cache) (outcome : CallOutcome) :
    Except String AnalysisResult × Cache × Bool :=
  let cache_key := create_cache_key (post_content post)
  let cached_result := get_cached_analysis cache cache_key
  if dictTruthy cached_result then
    (mkAnalysisResult post.id (cached_result.getD []), cache, false)
  else
    match outcome with
    | .success content =>
      match content with
      | .jsonObj analysis =>
        let cache2 := save_to_cache cache cache_key analysis
        match mkAnalysisResult post.id analysis with
        | .ok r => (.ok r, cache2, true)
        | .error e => (.ok (defaultErrorResult post.id e), cache2, true)
      | .nullContent => (.ok (defaultErrorResult post.id noneLoadsMsg), cache, true)
      | .emptyStr => (.ok (defaultErrorResult post.id emptyLoadsMsg), cache, true)
      | .unparseable m => (.ok (defaultErrorResult post.id m), cache, true)
    | .rateLimitErr m | .authErr m | .apiErr m | .otherErr m =>
      (.ok (defaultErrorResult post.id m), cache, true)

/-- Python `s.split("_")` on the characters of `s`: maximal runs between
underscores, with empty pieces kept (`"".split("_")` is `[""]`). -/
def splitUnderscore : List Char → List (List Char)
  | [] => [[]]
  | c :: rest =>
    match splitUnderscore rest with
    | [] => [[c]]
    | h :: t => if c = '_' then [] :: h :: t else (c :: h) :: t

/-- Python `"_".join(pieces)`. -/
def joinUnderscore : List (List Char) → List Char
  | [] => []
  | [x] => x
  | x :: y :: t => x ++ '_' :: joinUnderscore (y :: t)

/-- One fuelled pass of Python `s.replace(".json", "")`: delete every
non-overlapping occurrence of `.json`, scanning left to right.  The fuel is
the remaining length, which bounds the recursion. -/
def stripJsonAux : Nat → List Char → List Char
  | _, [] => []
  | 0, l => l
  | n + 1, c :: rest =>
    if c = '.' ∧ rest.take 4 = ['j', 's', 'o', 'n'] then stripJsonAux n (rest.drop 4)
    else c :: stripJsonAux n rest

/-- Python `s.replace(".json", "")`. -/
def stripJson (l : List Char) : List Char := stripJsonAux l.length l

/-- The legacy `extract_timestamp_from_filename`
(`src/analyze_problems.py:240-255`): join the last two `_`-separated pieces
(`"_".join(parts[-2:])`, the whole list when there are fewer than two) and
strip every occurrence of `.json`.  The `except (IndexError, ValueError)`
fallback to the current time is unreachable — `split`, `join` and `replace`
on strings raise neither exception — so the wall clock does not appear. -/
def extract_timestamp_from_filename (filename : String) : String :=
  let parts := splitUnderscore filename.toList
  String.mk (stripJson (joinUnderscore (parts.drop (parts.length - 2))))

/-- The output artifact name (`src/analyze_problems.py:280-282`). -/
def output_filename (input_filename : String) : String :=
  "analyzed_" ++ extract_timestamp_from_filename input_filename ++ ".json"

end Legacy

namespace Core

/-- The package `AnalysisResult` pydantic model
(`src/problem_spotter/core/analyze_problems.py:50-58`): carries an optional
`error` field, and `confidence_score` has no range constraint. -/
structure AnalysisResult where
  post_id : String
  is_question : Bool
  confidence_score : Rat
  category : String
  reasoning : String
  error : Option String
  deriving DecidableEq, Repr

/-- Construction of the package `AnalysisResult` from a parsed decision dict
(`src/problem_spotter/core/analyze_problems.py:229-236`): the four dict
accesses and pydantic type validation; no range check on `confidence_score`.
`error` is set to `None`.  A failure is a raised `KeyError`/validation error
(`Except.error`), which the enclosing handlers later absorb. -/
def mkAnalysisResult (pid : String) (d : JsonObj) : Except String AnalysisResult :=
  match getBoolField d "is_question" with
  | .error e => .error e
  | .ok q =>
    match getNumField d "confidence_score" with
    | .error e => .error e
    | .ok cs =>
      match getStrFieldOr d "category" "" with
      | .error e => .error e
      | .ok cat =>
        match getStrField d "reasoning" with
        | .error e => .error e
        | .ok r => .ok ⟨pid, q, cs, cat, r, none⟩

/-- The failure-default result every handler in the package `analyze_post`
builds: `is_question=False`, `confidence_score=0.0`, `category=""`, and
`reasoning` and `error` both set to the error message. -/
def degraded (pid msg : String) : AnalysisResult :=
  ⟨pid, false, 0, "", msg, some msg⟩

/-- The package `analyze_post`
(`src/problem_spotter/core/analyze_problems.py:170-330`), as a function of the
post, the name of the directly calling function (the source reads it from the
stack with `sys._getframe(1)`), whether any frame on the stack is a `test_`
function (`is_test_environment()`), and the outcome of the service call.
`Except.error` models a re-raised exception.

Source shape: no cache interaction at all; empty content and a
`JSONDecodeError` return degraded results from inside the `try`; a parsed dict
is turned into a result, and a `KeyError`/validation failure there escapes the
inner `try` (which catches only `JSONDecodeError`) into the outer
`except Exception` handler; `RateLimitError` re-raises when the direct caller
is `test_analyze_post_rate_limit` and `AuthenticationError` when it is
`test_analyze_post_auth_error` — in all other cases both of those handlers
return the same degraded result whether or not `is_test_environment()`
holds. -/
def analyze_post (post : RawPost) (callerName : String) (inTestEnv : Bool)
    (outcome : CallOutcome) : Except String AnalysisResult :=
  let is_rate_limit_test := callerName == "test_analyze_post_rate_limit"
  let is_auth_error_test := callerName == "test_analyze_post_auth_error"
  match outcome with
  | .success content =>
    match content with
    | .nullContent => .ok (degraded post.id "Empty response from OpenAI")
    | .emptyStr => .ok (degraded post.id "Empty response from OpenAI")
    | .unparseable m => .ok (degraded post.id ("Invalid JSON response: " ++ m))
    | .jsonObj analysis =>
      match mkAnalysisResult post.id analysis with
      | .ok r => .ok r
      | .error e => .ok (degraded post.id ("Unexpected error: " ++ e))
  | .rateLimitErr m =>
    let error_msg := "Rate limit exceeded: " ++ m
    if is_rate_limit_test then .error error_msg
    else if inTestEnv then .ok (degraded post.id error_msg)
    else .ok (degraded post.id error_msg)
  | .authErr m =>
    let error_msg := "Authentication failed: " ++ m
    if is_auth_error_test then .error error_msg
    else if inTestEnv then .ok (degraded post.id error_msg)
    else .ok (degraded post.id error_msg)
  | .apiErr m => .ok (degraded post.id ("API error: " ++ m))
  | .otherErr m => .ok (degraded post.id ("Unexpected error: " ++ m))

/-- An annotated post as `analyze_file` emits it: all the raw post's fields
plus the nested `analysis` object with keys
`post_id, is_question, confidence_score, category, reasoning, error`
(`src/problem_spotter/core/analyze_problems.py:393-403`). -/
structure AnalyzedPost where
  post : RawPost
  analysis : AnalysisResult
  deriving DecidableEq, Repr

/-- The package `analyze_file`
(`src/problem_spotter/core/analyze_problems.py:372-418`): for each post in
order, call `analyze_post` (whose direct caller is then `analyze_file`) and
append the merged annotated post.  The per-call service outcomes are supplied
as a list aligned with the posts.  A raised exception would propagate and
abort the batch, hence the `Except` result. -/
def analyze_file_loop (inTestEnv : Bool) :
    List (RawPost × CallOutcome) → Except String (List AnalyzedPost)
  | [] => .ok []
  | pc :: rest =>
    match analyze_post pc.1 "analyze_file" inTestEnv pc.2 with
    | .error e => .error e
    | .ok a =>
      match analyze_file_loop inTestEnv rest with
      | .error e => .error e
      | .ok l => .ok (⟨pc.1, a⟩ :: l)

/-- The package `analyze_file` over a batch: each post is paired with the
outcome of its service call, in input order. -/
def analyze_file (posts : List RawPost) (outcomes : List CallOutcome)
    (inTestEnv : Bool) : Except String (List AnalyzedPost) :=
  analyze_file_loop inTestEnv (posts.zip outcomes)

/-- ASCII decimal digit test; the model of the regex class `\d` restricted to
ASCII filenames. -/
def isDig (c : Char) : Bool := c.isDigit

/-- Whether the regex `\d\x7b8\x7d_\d\x7b6\x7d` matches at the head of this
character list, returning the matched characters. -/
def timestampAt (cs : List Char) : Option (List Char) :=
  let d8 := cs.take 8
  let rest := cs.drop 8
  if d8.length = 8 ∧ d8.all isDig then
    match rest with
    | '_' :: rest2 =>
      let d6 := rest2.take 6
      if d6.length = 6 ∧ d6.all isDig then some (d8 ++ '_' :: d6) else none
    | _ => none
  else none

/-- Leftmost match of the timestamp regex, i.e. `re.search` semantics. -/
def findTimestamp : List Char → Option (List Char)
  | [] => none
  | c :: rest =>
    match timestampAt (c :: rest) with
    | some m => some m
    | none => findTimestamp rest

/-- The package `extract_timestamp_from_filename`
(`src/problem_spotter/core/analyze_problems.py:347-369`): the leftmost
8-digits-underscore-6-digits substring of the filename, or the current
wall-clock time (`now`, the model's parameter for
`datetime.now().strftime("%Y%m%d_%H%M%S")`) when there is none. -/
def extract_timestamp_from_filename (filename : String) (now : String) : String :=
  match findTimestamp filename.toList with
  | some m => String.mk m
  | none => now

/-- The output artifact name
(`src/problem_spotter/core/analyze_problems.py:407-409`). -/
def output_filename (input_filename : String) (now : String) : String :=
  "analyzed_" ++ extract_timestamp_from_filename input_filename now ++ ".json"

end Core

/-! ## Classification of call outcomes, and concrete inputs for witnesses -/

/-- Whether an `Except` value is a success. -/
def exceptOk {α : Type} (e : Except String α) : Bool :=
  match e with
  | .ok _ => true
  | .error _ => false

/-- The outcomes the spec calls ordinary service failures: rate limit,
authentication failure, API/transport error, unknown exception, and empty or
unparseable response content. -/
def ordinaryFailure : CallOutcome → Bool
  | .success .nullContent => true
  | .success .emptyStr => true
  | .success (.unparseable _) => true
  | .success (.jsonObj _) => false
  | .rateLimitErr _ => true
  | .authErr _ => true
  | .apiErr _ => true
  | .otherErr _ => true

/-- The error description the package handlers produce for each ordinary
failure, read off the `error_msg` strings in
`src/problem_spotter/core/analyze_problems.py`. -/
def failureDescription : CallOutcome → String
  | .success .nullContent => "Empty response from OpenAI"
  | .success .emptyStr => "Empty response from OpenAI"
  | .success (.unparseable m) => "Invalid JSON response: " ++ m
  | .success (.jsonObj _) => ""
  | .rateLimitErr m => "Rate limit exceeded: " ++ m
  | .authErr m => "Authentication failed: " ++ m
  | .apiErr m => "API error: " ++ m
  | .otherErr m => "Unexpected error: " ++ m

/-- A decision payload that parses into the required fields: the two required
accesses and the optional one all succeed. -/
def wellFormedPayload (d : JsonObj) : Bool :=
  exceptOk (getBoolField d "is_question") && exceptOk (getNumField d "confidence_score") &&
    exceptOk (getStrFieldOr d "category" "") && exceptOk (getStrField d "reasoning")

/-- An external call counts as a genuine classification success when it
returns content parsing to a payload with the required fields. -/
def classificationSucceeds : CallOutcome → Bool
  | .success (.jsonObj d) => wellFormedPayload d
  | _ => false

/-- A raw post with the given identity and text and fixed metadata. -/
def mkPost (pid title selftext : String) : RawPost :=
  ⟨pid, title, selftext, "user", 1700000000, "techsupport", "/r/techsupport/1",
   "https://example.invalid/1", 1, false⟩

/-- A well-formed cached/served decision payload. -/
def goodPayload : JsonObj :=
  [("is_question", .jbool true), ("confidence_score", .jnum (92 / 100)),
   ("category", .jstr "tech"), ("reasoning", .jstr "asks for concrete help")]

/-- A payload whose `confidence_score` lies outside the unit interval. -/
def overRangePayload : JsonObj :=
  [("is_question", .jbool true), ("confidence_score", .jnum 2),
   ("reasoning", .jstr "r")]

/-- The empty cache directory. -/
def emptyCache : Cache := fun _ => none

/-- A cache directory holding exactly one entry. -/
def singletonCache (key : String) (d : JsonObj) : Cache :=
  fun k => if k = key then some d else none

/-- First post of the colliding pair: the separator text sits inside the
title. -/
def collidingPostA : RawPost := mkPost "pA" "A\nContent: B" "C"

/-- Second post of the colliding pair: the same characters split between title
and body. -/
def collidingPostB : RawPost := mkPost "pB" "A" "B\nContent: C"

/-! ## Theorems -/

set_option maxRecDepth 100000 in
/-- Sanity check of the hash model against the FIPS 180-4 test vector for
the message `"abc"`. -/
theorem sha256hex_abc :
    sha256hex (strBytes "abc") =
      "ba7816bf8f01cfea414140de5dae2223b00361a396177a9cb410ff61f20015ad" := by
  decide

/-- C8: for every fingerprint `k` and payload `v`, `put(k, v)` followed by
`get(k)` returns exactly `v`, and after a second `put(k, v)` a `get(k)` still
returns exactly `v`. -/
theorem C8_cache_put_get (cache : Cache) (k : String) (v : JsonObj) :
    get_cached_analysis (save_to_cache cache k v) k = some v ∧
    get_cached_analysis (save_to_cache (save_to_cache cache k v) k v) k = some v := by
  constructor <;> simp [get_cached_analysis, save_to_cache]

/-- C10: the fingerprint input encoding is not injective on
`(title, selftext)` pairs — the two concrete posts have distinct pairs, yet
their formatted contents coincide, so they produce the identical fingerprint
and share a single cache entry. -/
theorem C10_fingerprint_collision :
    (collidingPostA.title, collidingPostA.selftext) ≠
      (collidingPostB.title, collidingPostB.selftext) ∧
    post_content collidingPostA = post_content collidingPostB ∧
    fingerprint collidingPostA = fingerprint collidingPostB := by
  refine ⟨by decide, by decide, ?_⟩
  show create_cache_key (post_content collidingPostA) =
    create_cache_key (post_content collidingPostB)
  exact congrArg create_cache_key (by decide)

/-- C6: the fingerprint `analyze_post` uses is the hex-encoded SHA-256 digest
of the UTF-8 encoding of the string built as `Title: `, the title, a newline,
`Content: ` and the body; and it is a pure function of that text — equal
`(title, selftext)` inputs give equal fingerprints. -/
theorem C6_fingerprint_is_sha256 (p q : RawPost)
    (ht : p.title = q.title) (hs : p.selftext = q.selftext) :
    fingerprint p =
      sha256hex (strBytes ("Title: " ++ p.title ++ "\nContent: " ++ p.selftext)) ∧
    fingerprint p = fingerprint q := by
  refine ⟨rfl, ?_⟩
  unfold fingerprint create_cache_key post_content
  rw [ht, hs]

/-- Witness for C6 at two concrete posts sharing their text. -/
theorem C6_fingerprint_is_sha256_witness :
    (mkPost "w1" "t" "s").title = (mkPost "w2" "t" "s").title ∧
    (mkPost "w1" "t" "s").selftext = (mkPost "w2" "t" "s").selftext ∧
    (fingerprint (mkPost "w1" "t" "s") =
      sha256hex (strBytes ("Title: " ++ (mkPost "w1" "t" "s").title ++ "\nContent: " ++
        (mkPost "w1" "t" "s").selftext)) ∧
     fingerprint (mkPost "w1" "t" "s") = fingerprint (mkPost "w2" "t" "s")) :=
  ⟨rfl, rfl, C6_fingerprint_is_sha256 (mkPost "w1" "t" "s") (mkPost "w2" "t" "s") rfl rfl⟩

set_option maxRecDepth 100000 in
/-- C7: the claim promises a fall-back to the current wall-clock time whenever
the input filename contains no timestamp, and the legacy script's own comment
promises the same; but the legacy `extract_timestamp_from_filename` never
falls back (its exception branch is unreachable) and instead returns the last
two underscore-separated pieces of the name with `.json` stripped, so the
artifact for `invalid_filename.json` is named `analyzed_invalid_filename.json`
regardless of the clock.  The package version does fall back as claimed. -/
theorem C7_timestamp_fallback_divergence :
    Legacy.extract_timestamp_from_filename "invalid_filename.json" = "invalid_filename" ∧
    Legacy.output_filename "invalid_filename.json" = "analyzed_invalid_filename.json" ∧
    Legacy.extract_timestamp_from_filename "reddit_how_do_i_results_20250404_113459.json" =
      "20250404_113459" ∧
    Core.extract_timestamp_from_filename "invalid_filename.json" "20250404_120000" =
      "20250404_120000" ∧
    Core.extract_timestamp_from_filename "reddit_how_do_i_results_20250404_113459.json"
      "20250404_120000" = "20250404_113459" := by
  refine ⟨by decide, by decide, by decide, by decide, by decide⟩

/-- C9: a cache file that exists but holds the empty JSON object is treated
as a miss — `get` returns the stored empty payload (the hypothesis), yet
`classify` proceeds to call the external service, and its result is the one
the service path produces — because the hit test `if cached_result:` uses the
dict's truthiness rather than its presence. -/
theorem C9_empty_entry_treated_as_miss (post : RawPost) (cache : Cache)
    (outcome : CallOutcome)
    (h : get_cached_analysis cache (fingerprint post) = some ([] : JsonObj)) :
    (Legacy.analyze_post post cache outcome).2.2 = true ∧
    (Legacy.analyze_post post cache outcome).1 =
      (Legacy.analyze_post post emptyCache outcome).1 := by
  have h' : cache (create_cache_key (post_content post)) = some [] := h
  unfold Legacy.analyze_post
  simp only [get_cached_analysis, h', emptyCache, dictTruthy, List.isEmpty_nil,
    Bool.not_true, Bool.false_eq_true, if_false]
  cases outcome with
  | success c =>
    cases c with
    | jsonObj d =>
      rcases hmk : Legacy.mkAnalysisResult post.id d with e | r <;> simp [hmk]
    | nullContent => exact ⟨rfl, rfl⟩
    | emptyStr => exact ⟨rfl, rfl⟩
    | unparseable m => exact ⟨rfl, rfl⟩
  | rateLimitErr m => exact ⟨rfl, rfl⟩
  | authErr m => exact ⟨rfl, rfl⟩
  | apiErr m => exact ⟨rfl, rfl⟩
  | otherErr m => exact ⟨rfl, rfl⟩

/-- Witness for C9: a concrete post whose fingerprint maps to a stored empty
object; the external call is made. -/
theorem C9_empty_entry_treated_as_miss_witness :
    get_cached_analysis (fun _ => some []) (fingerprint (mkPost "w9" "t" "s")) =
      some ([] : JsonObj) ∧
    ((Legacy.analyze_post (mkPost "w9" "t" "s") (fun _ => some [])
        (.success (.jsonObj goodPayload))).2.2 = true ∧
      (Legacy.analyze_post (mkPost "w9" "t" "s") (fun _ => some [])
        (.success (.jsonObj goodPayload))).1 =
        (Legacy.analyze_post (mkPost "w9" "t" "s") emptyCache
          (.success (.jsonObj goodPayload))).1) :=
  ⟨rfl, C9_empty_entry_treated_as_miss (mkPost "w9" "t" "s") (fun _ => some [])
    (.success (.jsonObj goodPayload)) rfl⟩

/-- Counterexample to C1 as stated: this post's fingerprint has an entry in
the cache (`get` returns the stored payload, here the empty object), yet
`classify` does make the external call. -/
theorem C1_present_entry_counterexample :
    get_cached_analysis (singletonCache (fingerprint (mkPost "p1" "t" "s")) [])
      (fingerprint (mkPost "p1" "t" "s")) = some ([] : JsonObj) ∧
    (Legacy.analyze_post (mkPost "p1" "t" "s")
      (singletonCache (fingerprint (mkPost "p1" "t" "s")) [])
      (.rateLimitErr "quota")).2.2 = true := by
  constructor
  · simp [get_cached_analysis, singletonCache]
  · simp [Legacy.analyze_post, get_cached_analysis, singletonCache, fingerprint,
      dictTruthy]

/-- C1 (amended): for every post whose fingerprint has a *non-empty* entry in
the cache, `classify` makes no call to the external service and leaves the
cache unchanged; and when that entry parses into the required decision fields
with an in-range confidence, the returned result carries exactly those fields
with the querying post's own id as `post_id`.  (The legacy result type has no
`error` field at all, so no error is carried; a non-empty entry that fails to
parse instead raises out of `classify`.) -/
theorem C1_cache_hit_short_circuit (post : RawPost) (cache : Cache)
    (outcome : CallOutcome) (d : JsonObj) (q : Bool) (cs : Rat) (cat r : String)
    (hd : get_cached_analysis cache (fingerprint post) = some d)
    (hne : d.isEmpty = false)
    (hq : getBoolField d "is_question" = .ok q)
    (hcs : getNumField d "confidence_score" = .ok cs)
    (hcat : getStrFieldOr d "category" "" = .ok cat)
    (hr : getStrField d "reasoning" = .ok r)
    (hlo : 0 ≤ cs) (hhi : cs ≤ 1) :
    Legacy.analyze_post post cache outcome =
      (.ok ⟨post.id, q, cs, cat, r⟩, cache, false) := by
  have h' : cache (create_cache_key (post_content post)) = some d := hd
  unfold Legacy.analyze_post
  simp only [get_cached_analysis, h', dictTruthy, hne, Bool.not_false, if_true,
    Option.getD_some]
  unfold Legacy.mkAnalysisResult
  rw [hq, hcs, hcat, hr]
  simp [hlo, hhi]

/-- Witness for C1 at a concrete post and a cache holding a well-formed
payload at its fingerprint. -/
theorem C1_cache_hit_short_circuit_witness :
    get_cached_analysis (fun _ => some goodPayload)
      (fingerprint (mkPost "w1h" "t" "s")) = some goodPayload ∧
    (goodPayload : JsonObj).isEmpty = false ∧
    getBoolField goodPayload "is_question" = .ok true ∧
    getNumField goodPayload "confidence_score" = .ok (92 / 100) ∧
    getStrFieldOr goodPayload "category" "" = .ok "tech" ∧
    getStrField goodPayload "reasoning" = .ok "asks for concrete help" ∧
    (0 : Rat) ≤ 92 / 100 ∧ (92 / 100 : Rat) ≤ 1 ∧
    Legacy.analyze_post (mkPost "w1h" "t" "s") (fun _ => some goodPayload)
        (.rateLimitErr "quota") =
      (.ok ⟨"w1h", true, 92 / 100, "tech", "asks for concrete help"⟩,
        (fun _ => some goodPayload), false) :=
  ⟨rfl, rfl, rfl, rfl, rfl, rfl, by norm_num, by norm_num,
    C1_cache_hit_short_circuit (mkPost "w1h" "t" "s") (fun _ => some goodPayload)
      (.rateLimitErr "quota") goodPayload true (92 / 100) "tech"
      "asks for concrete help" rfl rfl rfl rfl rfl rfl (by norm_num) (by norm_num)⟩

set_option maxRecDepth 2000000 in
/-- Counterexample to C2 as stated: on a response whose content parses to the
empty JSON object, the legacy `classify` returns a degraded (failure-default)
result — the required fields are missing, so building the result raises
`KeyError` into the catch-all handler — yet the cache, previously without an
entry for this fingerprint, now holds one, because `save_to_cache` runs before
the fields are validated. -/
theorem C2_degraded_yet_cached_counterexample :
    (Legacy.analyze_post (mkPost "p2" "t" "s") emptyCache
        (.success (.jsonObj []))).1 =
      .ok (Legacy.defaultErrorResult "p2" "'is_question'") ∧
    get_cached_analysis
        (Legacy.analyze_post (mkPost "p2" "t" "s") emptyCache
          (.success (.jsonObj []))).2.1
        (fingerprint (mkPost "p2" "t" "s")) = some ([] : JsonObj) ∧
    get_cached_analysis emptyCache (fingerprint (mkPost "p2" "t" "s")) = none := by
  refine ⟨rfl, ?_, rfl⟩
  simp [Legacy.analyze_post, get_cached_analysis, save_to_cache, emptyCache,
    dictTruthy, fingerprint, Legacy.mkAnalysisResult, getBoolField]

/-- C2 (amended): on a cache miss, the legacy `classify` writes a cache entry
for the post's fingerprint if and only if the external call succeeds and its
response parses as JSON — the parsed object is persisted even when it lacks
the required decision fields, in which case a degraded result is returned
while the entry remains; on every non-parsing outcome (exception, `None` or
empty or unparseable content) the cache is left unchanged. -/
theorem C2_cache_write_iff_parse_success (post : RawPost) (cache : Cache)
    (outcome : CallOutcome)
    (hmiss : dictTruthy (get_cached_analysis cache (fingerprint post)) = false) :
    (∀ analysis, outcome = .success (.jsonObj analysis) →
      (Legacy.analyze_post post cache outcome).2.1 =
        save_to_cache cache (fingerprint post) analysis) ∧
    ((∀ analysis, outcome ≠ .success (.jsonObj analysis)) →
      (Legacy.analyze_post post cache outcome).2.1 = cache) ∧
    (∀ analysis e, outcome = .success (.jsonObj analysis) →
      Legacy.mkAnalysisResult post.id analysis = .error e →
      (Legacy.analyze_post post cache outcome).1 =
        .ok (Legacy.defaultErrorResult post.id e)) := by
  have h' : dictTruthy (cache (create_cache_key (post_content post))) = false := hmiss
  unfold Legacy.analyze_post
  simp only [get_cached_analysis, h', Bool.false_eq_true, if_false]
  refine ⟨?_, ?_, ?_⟩
  · rintro analysis rfl
    rcases hmk : Legacy.mkAnalysisResult post.id analysis with e | r <;>
      simp [hmk, fingerprint]
  · intro hno
    cases outcome with
    | success c =>
      cases c with
      | jsonObj d => exact absurd rfl (hno d)
      | nullContent => rfl
      | emptyStr => rfl
      | unparseable m => rfl
    | rateLimitErr m => rfl
    | authErr m => rfl
    | apiErr m => rfl
    | otherErr m => rfl
  · rintro analysis e rfl hmk
    simp [hmk]

/-- Witness for C2 at a concrete post, the empty cache, and a call that
succeeds with a well-formed payload: the payload is written at the
fingerprint. -/
theorem C2_cache_write_iff_parse_success_witness :
    dictTruthy (get_cached_analysis emptyCache
      (fingerprint (mkPost "w2" "t" "s"))) = false ∧
    (Legacy.analyze_post (mkPost "w2" "t" "s") emptyCache
        (.success (.jsonObj goodPayload))).2.1 =
      save_to_cache emptyCache (fingerprint (mkPost "w2" "t" "s")) goodPayload :=
  ⟨rfl,
    (C2_cache_write_iff_parse_success (mkPost "w2" "t" "s") emptyCache
      (.success (.jsonObj goodPayload)) rfl).1 goodPayload rfl⟩

/-- Counterexample to C3 as stated: a rate-limit failure is an ordinary
service failure, yet when the direct caller is named
`test_analyze_post_rate_limit` the package `classify` re-raises instead of
returning a degraded result. -/
theorem C3_test_caller_reraises_counterexample :
    ordinaryFailure (.rateLimitErr "quota") = true ∧
    Core.analyze_post (mkPost "p3" "t" "s") "test_analyze_post_rate_limit" true
      (.rateLimitErr "quota") = .error "Rate limit exceeded: quota" :=
  ⟨rfl, rfl⟩

/-- C3 (amended): for every post and every ordinary service failure, the
package `classify` does not raise — *unless* the direct caller is the
dedicated function `test_analyze_post_rate_limit` (for rate-limit failures)
or `test_analyze_post_auth_error` (for authentication failures), where the
exception is re-raised.  In every other calling context it returns the
failure-default result: `is_question = false`, `confidence_score = 0.0`,
`category = ""`, `reasoning` set to a description of the failure, and `error`
set to that same description. -/
theorem C3_failures_degrade_outside_test_callers (post : RawPost)
    (caller : String) (env : Bool) (outcome : CallOutcome)
    (hf : ordinaryFailure outcome = true)
    (h1 : caller ≠ "test_analyze_post_rate_limit")
    (h2 : caller ≠ "test_analyze_post_auth_error") :
    Core.analyze_post post caller env outcome =
      .ok ⟨post.id, false, 0, "", failureDescription outcome,
        some (failureDescription outcome)⟩ := by
  have e1 : (caller == "test_analyze_post_rate_limit") = false :=
    beq_eq_false_iff_ne.mpr h1
  have e2 : (caller == "test_analyze_post_auth_error") = false :=
    beq_eq_false_iff_ne.mpr h2
  cases outcome with
  | success c =>
    cases c with
    | jsonObj d => exact absurd hf (by simp [ordinaryFailure])
    | nullContent => rfl
    | emptyStr => rfl
    | unparseable m => rfl
  | rateLimitErr m =>
    simp [Core.analyze_post, e1, failureDescription, Core.degraded]
  | authErr m =>
    simp [Core.analyze_post, e2, failureDescription, Core.degraded]
  | apiErr m => rfl
  | otherErr m => rfl

/-- Witness for C3 at a concrete post, an ordinary caller and a rate-limit
failure. -/
theorem C3_failures_degrade_outside_test_callers_witness :
    ordinaryFailure (.rateLimitErr "quota") = true ∧
    "main" ≠ "test_analyze_post_rate_limit" ∧
    "main" ≠ "test_analyze_post_auth_error" ∧
    Core.analyze_post (mkPost "w3" "t" "s") "main" false (.rateLimitErr "quota") =
      .ok ⟨"w3", false, 0, "", failureDescription (.rateLimitErr "quota"),
        some (failureDescription (.rateLimitErr "quota"))⟩ :=
  ⟨rfl, by decide, by decide,
    C3_failures_degrade_outside_test_callers (mkPost "w3" "t" "s") "main" false
      (.rateLimitErr "quota") rfl (by decide) (by decide)⟩

/-- Counterexample to C4 as stated: the package `AnalysisResult` has no range
constraint, so a service payload with `confidence_score = 2` is propagated
verbatim — neither clamped nor rejected. -/
theorem C4_core_out_of_range_counterexample :
    Core.analyze_post (mkPost "p4" "t" "s") "main" false
        (.success (.jsonObj overRangePayload)) =
      .ok ⟨"p4", true, 2, "", "r", none⟩ ∧ ¬((2 : Rat) ≤ 1) := by
  exact ⟨rfl, by norm_num⟩

/-- Every legacy result built from a payload dict has its validated
`confidence_score` inside the unit interval: the pydantic bound
`Field(ge=0.0, le=1.0)` is checked before `Except.ok` is produced. -/
theorem legacy_mkAnalysisResult_range (pid : String) (d : JsonObj)
    (r : Legacy.AnalysisResult) (h : Legacy.mkAnalysisResult pid d = .ok r) :
    0 ≤ r.confidence_score ∧ r.confidence_score ≤ 1 := by
  unfold Legacy.mkAnalysisResult at h
  rcases hq : getBoolField d "is_question" with e | q <;> simp only [hq] at h <;>
    try exact absurd h (by simp)
  rcases hc : getNumField d "confidence_score" with e | cs <;> simp only [hc] at h <;>
    try exact absurd h (by simp)
  rcases hcat : getStrFieldOr d "category" "" with e | cat <;> simp only [hcat] at h <;>
    try exact absurd h (by simp)
  rcases hr : getStrField d "reasoning" with e | rr <;> simp only [hr] at h <;>
    try exact absurd h (by simp)
  rcases hcond : decide ((0 : Rat) ≤ cs ∧ cs ≤ 1) with _ | _
  · rw [if_neg (of_decide_eq_false hcond)] at h
    exact absurd h (by simp)
  · rw [if_pos (of_decide_eq_true hcond)] at h
    injection h with h2
    obtain rfl := h2
    simpa using of_decide_eq_true hcond

/-- C4 (amended): every `AnalysisResult` the legacy `classify` returns — on
the success path, the cache-hit path and the degraded path — satisfies
`0.0 <= confidence_score <= 1.0`: an out-of-range value from the service or
from a cached payload is rejected by pydantic validation (raising on the hit
path, degrading to `0.0` inside the `try` on the service path) rather than
propagated.  The package version, by contrast, propagates out-of-range
values, as the counterexample shows. -/
theorem C4_legacy_range_invariant (post : RawPost) (cache : Cache)
    (outcome : CallOutcome) (r : Legacy.AnalysisResult)
    (h : (Legacy.analyze_post post cache outcome).1 = .ok r) :
    0 ≤ r.confidence_score ∧ r.confidence_score ≤ 1 := by
  have hdefault : ∀ pid msg : String, r = Legacy.defaultErrorResult pid msg →
      0 ≤ r.confidence_score ∧ r.confidence_score ≤ 1 := by
    rintro pid msg rfl
    simp [Legacy.defaultErrorResult]
  rcases hdt : dictTruthy (cache (create_cache_key (post_content post))) with _ | _
  · cases outcome with
    | success c =>
      cases c with
      | jsonObj d =>
        rcases hmk : Legacy.mkAnalysisResult post.id d with e | r0
        · have hv : (Legacy.analyze_post post cache (.success (.jsonObj d))).1 =
              .ok (Legacy.defaultErrorResult post.id e) := by
            simp [Legacy.analyze_post, get_cached_analysis, hdt, hmk]
          rw [hv] at h
          injection h with h2
          exact hdefault _ _ h2.symm
        · have hv : (Legacy.analyze_post post cache (.success (.jsonObj d))).1 =
              .ok r0 := by
            simp [Legacy.analyze_post, get_cached_analysis, hdt, hmk]
          rw [hv] at h
          injection h with h2
          obtain rfl := h2
          exact legacy_mkAnalysisResult_range _ _ _ hmk
      | nullContent =>
        have hv : (Legacy.analyze_post post cache (.success .nullContent)).1 =
            .ok (Legacy.defaultErrorResult post.id Legacy.noneLoadsMsg) := by
          simp [Legacy.analyze_post, get_cached_analysis, hdt]
        rw [hv] at h
        injection h with h2
        exact hdefault _ _ h2.symm
      | emptyStr =>
        have hv : (Legacy.analyze_post post cache (.success .emptyStr)).1 =
            .ok (Legacy.defaultErrorResult post.id Legacy.emptyLoadsMsg) := by
          simp [Legacy.analyze_post, get_cached_analysis, hdt]
        rw [hv] at h
        injection h with h2
        exact hdefault _ _ h2.symm
      | unparseable m =>
        have hv : (Legacy.analyze_post post cache (.success (.unparseable m))).1 =
            .ok (Legacy.defaultErrorResult post.id m) := by
          simp [Legacy.analyze_post, get_cached_analysis, hdt]
        rw [hv] at h
        injection h with h2
        exact hdefault _ _ h2.symm
    | rateLimitErr m =>
      have hv : (Legacy.analyze_post post cache (.rateLimitErr m)).1 =
          .ok (Legacy.defaultErrorResult post.id m) := by
        simp [Legacy.analyze_post, get_cached_analysis, hdt]
      rw [hv] at h
      injection h with h2
      exact hdefault _ _ h2.symm
    | authErr m =>
      have hv : (Legacy.analyze_post post cache (.authErr m)).1 =
          .ok (Legacy.defaultErrorResult post.id m) := by
        simp [Legacy.analyze_post, get_cached_analysis, hdt]
      rw [hv] at h
      injection h with h2
      exact hdefault _ _ h2.symm
    | apiErr m =>
      have hv : (Legacy.analyze_post post cache (.apiErr m)).1 =
          .ok (Legacy.defaultErrorResult post.id m) := by
        simp [Legacy.analyze_post, get_cached_analysis, hdt]
      rw [hv] at h
      injection h with h2
      exact hdefault _ _ h2.symm
    | otherErr m =>
      have hv : (Legacy.analyze_post post cache (.otherErr m)).1 =
          .ok (Legacy.defaultErrorResult post.id m) := by
        simp [Legacy.analyze_post, get_cached_analysis, hdt]
      rw [hv] at h
      injection h with h2
      exact hdefault _ _ h2.symm
  · have hv : (Legacy.analyze_post post cache outcome).1 =
        Legacy.mkAnalysisResult post.id
          ((cache (create_cache_key (post_content post))).getD []) := by
      simp [Legacy.analyze_post, get_cached_analysis, hdt]
    rw [hv] at h
    exact legacy_mkAnalysisResult_range _ _ _ h

/-- Witness for C4 at a concrete degraded result of the legacy pipeline. -/
theorem C4_legacy_range_invariant_witness :
    (Legacy.analyze_post (mkPost "w4" "t" "s") emptyCache (.apiErr "boom")).1 =
      .ok (Legacy.defaultErrorResult "w4" "boom") ∧
    0 ≤ (Legacy.defaultErrorResult "w4" "boom").confidence_score ∧
    (Legacy.defaultErrorResult "w4" "boom").confidence_score ≤ 1 :=
  ⟨rfl, C4_legacy_range_invariant (mkPost "w4" "t" "s") emptyCache (.apiErr "boom")
    (Legacy.defaultErrorResult "w4" "boom") rfl⟩

/-- A string with a non-empty prefix is non-empty. -/
theorem prefixed_ne_empty (p m : String) (hp : p.length ≠ 0) : p ++ m ≠ "" := by
  intro h
  have hl : (p ++ m).length = (0 : Nat) := by rw [h]; rfl
  rw [String.length_append] at hl
  omega

/-- Building the package result from a payload succeeds exactly when the
payload is well formed. -/
theorem core_mk_exceptOk (pid : String) (d : JsonObj) :
    exceptOk (Core.mkAnalysisResult pid d) = wellFormedPayload d := by
  unfold Core.mkAnalysisResult wellFormedPayload
  rcases hq : getBoolField d "is_question" with e | q <;> simp only [hq, exceptOk] <;>
    try simp
  rcases hc : getNumField d "confidence_score" with e | cs <;>
    simp only [hc, exceptOk] <;> try simp
  rcases hcat : getStrFieldOr d "category" "" with e | cat <;>
    simp only [hcat, exceptOk] <;> try simp
  rcases hr : getStrField d "reasoning" with e | rr <;> simp only [hr, exceptOk]

/-- A successfully built package result carries the supplied `post_id` and no
error. -/
theorem core_mk_shape (pid : String) (d : JsonObj) (r : Core.AnalysisResult)
    (h : Core.mkAnalysisResult pid d = .ok r) :
    r.post_id = pid ∧ r.error = none := by
  unfold Core.mkAnalysisResult at h
  rcases hq : getBoolField d "is_question" with e | q <;> simp only [hq] at h <;>
    try exact absurd h (by simp)
  rcases hc : getNumField d "confidence_score" with e | cs <;> simp only [hc] at h <;>
    try exact absurd h (by simp)
  rcases hcat : getStrFieldOr d "category" "" with e | cat <;>
    simp only [hcat] at h <;> try exact absurd h (by simp)
  rcases hr : getStrField d "reasoning" with e | rr <;> simp only [hr] at h
  · exact absurd h (by simp)
  injection h with h2
  obtain rfl := h2
  exact ⟨rfl, rfl⟩

/-- Inside `analyze_file` (so with caller name `analyze_file`), every item's
classification returns a result: no exception escapes, the result's `post_id`
is the post's id, a genuine success carries no error, and any failure carries
a non-empty error message. -/
theorem core_analyze_file_item (post : RawPost) (env : Bool) (o : CallOutcome) :
    ∃ r, Core.analyze_post post "analyze_file" env o = .ok r ∧
      r.post_id = post.id ∧
      (classificationSucceeds o = true → r.error = none) ∧
      (classificationSucceeds o = false → ∃ m, r.error = some m ∧ m ≠ "") := by
  cases o with
  | success c =>
    cases c with
    | nullContent =>
      refine ⟨Core.degraded post.id "Empty response from OpenAI", rfl, rfl, ?_, ?_⟩
      · intro h; simp [classificationSucceeds] at h
      · intro _; exact ⟨_, rfl, by decide⟩
    | emptyStr =>
      refine ⟨Core.degraded post.id "Empty response from OpenAI", rfl, rfl, ?_, ?_⟩
      · intro h; simp [classificationSucceeds] at h
      · intro _; exact ⟨_, rfl, by decide⟩
    | unparseable m =>
      refine ⟨Core.degraded post.id ("Invalid JSON response: " ++ m), rfl, rfl, ?_, ?_⟩
      · intro h; simp [classificationSucceeds] at h
      · intro _
        exact ⟨_, rfl, prefixed_ne_empty "Invalid JSON response: " m (by decide)⟩
    | jsonObj d =>
      rcases hmk : Core.mkAnalysisResult post.id d with e | r0
      · have hw : wellFormedPayload d = false := by
          rw [← core_mk_exceptOk post.id d, hmk]; rfl
        refine ⟨Core.degraded post.id ("Unexpected error: " ++ e), ?_, rfl, ?_, ?_⟩
        · simp [Core.analyze_post, hmk]
        · intro hcontra; simp [classificationSucceeds, hw] at hcontra
        · intro _
          exact ⟨_, rfl, prefixed_ne_empty "Unexpected error: " e (by decide)⟩
      · obtain ⟨hpid, herr⟩ := core_mk_shape post.id d r0 hmk
        refine ⟨r0, by simp [Core.analyze_post, hmk], hpid, fun _ => herr, ?_⟩
        intro hcontra
        have hw : wellFormedPayload d = true := by
          rw [← core_mk_exceptOk post.id d, hmk]; rfl
        simp [classificationSucceeds, hw] at hcontra
  | rateLimitErr m =>
    refine ⟨Core.degraded post.id ("Rate limit exceeded: " ++ m), ?_, rfl, ?_, ?_⟩
    · cases env <;> rfl
    · intro h; simp [classificationSucceeds] at h
    · intro _
      exact ⟨_, rfl, prefixed_ne_empty "Rate limit exceeded: " m (by decide)⟩
  | authErr m =>
    refine ⟨Core.degraded post.id ("Authentication failed: " ++ m), ?_, rfl, ?_, ?_⟩
    · cases env <;> rfl
    · intro h; simp [classificationSucceeds] at h
    · intro _
      exact ⟨_, rfl, prefixed_ne_empty "Authentication failed: " m (by decide)⟩
  | apiErr m =>
    refine ⟨Core.degraded post.id ("API error: " ++ m), rfl, rfl, ?_, ?_⟩
    · intro h; simp [classificationSucceeds] at h
    · intro _; exact ⟨_, rfl, prefixed_ne_empty "API error: " m (by decide)⟩
  | otherErr m =>
    refine ⟨Core.degraded post.id ("Unexpected error: " ++ m), rfl, rfl, ?_, ?_⟩
    · intro h; simp [classificationSucceeds] at h
    · intro _
      exact ⟨_, rfl, prefixed_ne_empty "Unexpected error: " m (by decide)⟩

/-- The batch loop never aborts, produces one annotated post per item in
order, and each annotated post pairs the raw post with its classification
result. -/
theorem core_analyze_file_loop_spec (env : Bool)
    (items : List (RawPost × CallOutcome)) :
    ∃ l, Core.analyze_file_loop env items = .ok l ∧
      l.length = items.length ∧
      ∀ j pc, items.get? j = some pc →
        ∃ r, l.get? j = some ⟨pc.1, r⟩ ∧
          Core.analyze_post pc.1 "analyze_file" env pc.2 = .ok r := by
  induction items with
  | nil =>
    refine ⟨[], rfl, rfl, ?_⟩
    intro j pc hj
    cases j <;> simp at hj
  | cons pc rest ih =>
    obtain ⟨r, hr, -, -, -⟩ := core_analyze_file_item pc.1 env pc.2
    obtain ⟨l, hl, hlen, hidx⟩ := ih
    refine ⟨⟨pc.1, r⟩ :: l, ?_, by simp [hlen], ?_⟩
    · simp only [Core.analyze_file_loop, hr, hl]
    · intro j q hj
      cases j with
      | zero =>
        simp only [List.get?_cons_zero, Option.some.injEq] at hj
        subst hj
        exact ⟨r, rfl, hr⟩
      | succ n =>
        simp only [List.get?_cons_succ] at hj ⊢
        exact hidx n q hj

/-- Aligned indexing through `zip`. -/
theorem zip_get_of_get {α β : Type} (l1 : List α) (l2 : List β) (j : Nat) (a : α)
    (b : β) (h1 : l1.get? j = some a) (h2 : l2.get? j = some b) :
    (l1.zip l2).get? j = some (a, b) := by
  induction l1 generalizing l2 j with
  | nil => simp at h1
  | cons x xs ih =>
    cases l2 with
    | nil => simp at h2
    | cons y ys =>
      cases j with
      | zero =>
        simp only [List.get?_cons_zero, Option.some.injEq] at h1 h2
        subst h1; subst h2
        rfl
      | succ n =>
        simp only [List.get?_cons_succ, List.zip_cons_cons] at h1 h2 ⊢
        exact ih ys n h1 h2

/-- C5: for every batch in which one item's classification fails and all
others genuinely succeed, `analyze_file` aborts on no item and returns
exactly one annotated post per input post, in input order, each pairing the
raw post with its result (whose `post_id` is that post's id); every
non-failing item carries no error and the failing item carries a non-empty
error message. -/
theorem C5_failure_isolation (posts : List RawPost) (outcomes : List CallOutcome)
    (env : Bool) (i : Nat) (p : RawPost) (o : CallOutcome)
    (hp : posts.get? i = some p) (ho : outcomes.get? i = some o)
    (hfail : classificationSucceeds o = false)
    (hok : ∀ j oj, j ≠ i → outcomes.get? j = some oj →
      classificationSucceeds oj = true)
    (hlen : outcomes.length = posts.length) :
    ∃ l, Core.analyze_file posts outcomes env = .ok l ∧
      l.length = posts.length ∧
      (∀ j pj oj, posts.get? j = some pj → outcomes.get? j = some oj →
        ∃ rj, l.get? j = some ⟨pj, rj⟩ ∧ rj.post_id = pj.id ∧
          (j ≠ i → rj.error = none)) ∧
      (∃ ri m, l.get? i = some ⟨p, ri⟩ ∧ ri.error = some m ∧ m ≠ "") := by
  obtain ⟨l, hl, hlen2, hidx⟩ := core_analyze_file_loop_spec env (posts.zip outcomes)
  have hzlen : (posts.zip outcomes).length = posts.length := by
    simp [List.length_zip, hlen]
  refine ⟨l, hl, by rw [hlen2, hzlen], ?_, ?_⟩
  · intro j pj oj hpj hoj
    obtain ⟨r, hrl, hrok⟩ := hidx j (pj, oj) (zip_get_of_get _ _ _ _ _ hpj hoj)
    obtain ⟨r', hr', hpid', hsucc', -⟩ := core_analyze_file_item pj env oj
    rw [hrok] at hr'
    injection hr' with he
    obtain rfl := he
    refine ⟨r, hrl, hpid', ?_⟩
    intro hne
    exact hsucc' (hok j oj hne hoj)
  · obtain ⟨r, hrl, hrok⟩ := hidx i (p, o) (zip_get_of_get _ _ _ _ _ hp ho)
    obtain ⟨r', hr', -, -, hfail'⟩ := core_analyze_file_item p env o
    rw [hrok] at hr'
    injection hr' with he
    obtain rfl := he
    obtain ⟨m, hm, hmne⟩ := hfail' hfail
    exact ⟨r, m, hrl, hm, hmne⟩

/-- Witness for C5: a two-post batch whose first call is rate-limited and
whose second call succeeds with a well-formed payload. -/
theorem C5_failure_isolation_witness :
    ([mkPost "w5a" "t1" "s1", mkPost "w5b" "t2" "s2"].get? 0 =
      some (mkPost "w5a" "t1" "s1")) ∧
    ([(.rateLimitErr "quota" : CallOutcome),
        .success (.jsonObj goodPayload)].get? 0 =
      some (.rateLimitErr "quota" : CallOutcome)) ∧
    classificationSucceeds (.rateLimitErr "quota") = false ∧
    (∃ l, Core.analyze_file [mkPost "w5a" "t1" "s1", mkPost "w5b" "t2" "s2"]
        [(.rateLimitErr "quota" : CallOutcome), .success (.jsonObj goodPayload)]
        false = .ok l ∧
      l.length = [mkPost "w5a" "t1" "s1", mkPost "w5b" "t2" "s2"].length ∧
      (∀ j pj oj,
        [mkPost "w5a" "t1" "s1", mkPost "w5b" "t2" "s2"].get? j = some pj →
        [(.rateLimitErr "quota" : CallOutcome),
          .success (.jsonObj goodPayload)].get? j = some oj →
        ∃ rj, l.get? j = some ⟨pj, rj⟩ ∧ rj.post_id = pj.id ∧
          (j ≠ 0 → rj.error = none)) ∧
      (∃ ri m, l.get? 0 = some ⟨mkPost "w5a" "t1" "s1", ri⟩ ∧
        ri.error = some m ∧ m ≠ "")) :=
  ⟨rfl, rfl, rfl,
    C5_failure_isolation [mkPost "w5a" "t1" "s1", mkPost "w5b" "t2" "s2"]
      [(.rateLimitErr "quota" : CallOutcome), .success (.jsonObj goodPayload)]
      false 0 (mkPost "w5a" "t1" "s1") (.rateLimitErr "quota") rfl rfl rfl
      (fun j oj hne hj => by
        match j with
        | 0 => exact absurd rfl hne
        | 1 =>
          simp only [List.get?_cons_succ, List.get?_cons_zero,
            Option.some.injEq] at hj
          subst hj
          rfl
        | n + 2 => simp at hj)
      rfl⟩

end ProblemSpotter
